import Mathlib

/-!
Verification of the Beehus run-execution pipeline against its sources.

This file shallowly embeds the parts of the repository that the properties
below talk about:

* `core/tasks.py` — the Celery `scrape_task` orchestrator and the
  `cleanup_stale_runs` periodic sweep;
* `core/services/file_processor.py` — the `FileProcessorService` (processing
  lock, output validator, post-scrape selection resolution, processed-file
  append, sandboxed script execution);
* `core/services/visual_processing.py` — the declarative script compiler;
* `app/console/routers/jobs.py` — the `retry_run` endpoint.

Python data is modelled with plain Lean structures; Mongo `$set` updates are
modelled as functional record updates; the effect oracles (file system,
subprocess outcome, exceptions raised by external calls) are explicit inputs
of the embedded functions.
-/

namespace Beehus

/-- Run lifecycle status (`Run.status` in `core/models/mongo_models.py`). -/
inductive RunStatus where
  | queued
  | running
  | success
  | failed
  deriving DecidableEq, Repr

/-- Processing sub-state (`Run.processing_status`). The model keeps the six
string values used by the code as an inductive type. -/
inductive ProcStatus where
  | not_required
  | pending_file_selection
  | pending_sheet_selection
  | processing
  | processed
  | failed
  deriving DecidableEq, Repr

/-- `RunFile.file_type`: `original` or `processed`. -/
inductive FileType where
  | original
  | processed
  deriving DecidableEq, Repr

/-! ### String containment helper (used to state "reason contains ...") -/

/-- `startsList pre l` : `pre` is an initial segment of `l`. -/
def startsList : List Char → List Char → Bool
  | [], _ => true
  | _ :: _, [] => false
  | a :: as, b :: bs => a == b && startsList as bs

/-- `containsList needle hay` : `needle` occurs contiguously inside `hay`. -/
def containsList (needle : List Char) : List Char → Bool
  | [] => startsList needle []
  | b :: bs => startsList needle (b :: bs) || containsList needle bs

/-- Substring test on strings (case sensitive). -/
def containsStr (needle hay : String) : Bool :=
  containsList needle.toList hay.toList

/-- ASCII lower-casing of a string, character by character. -/
def lowerStr (s : String) : String :=
  String.mk (s.toList.map Char.toLower)

/-- Case-insensitive substring test: both sides lower-cased first. -/
def containsStrCI (needle hay : String) : Bool :=
  containsStr (lowerStr needle) (lowerStr hay)

/-- Split a character list on a separator character; like Python
`str.split(sep)` for a one-character separator, the result always has one
(possibly empty) piece more than there are separators. -/
def charSplitOn (sep : Char) : List Char → List (List Char)
  | [] => [[]]
  | c :: rest =>
    match charSplitOn sep rest with
    | [] => if c = sep then [[], []] else [[c]]
    | h :: t => if c = sep then [] :: h :: t else (c :: h) :: t

/-- Split a string on a one-character separator. -/
def splitOnChar (sep : Char) (s : String) : List String :=
  (charSplitOn sep s.toList).map String.mk

/-- Join strings with a separator (structural `String.intercalate`). -/
def joinWith (sep : String) : List String → String
  | [] => ""
  | [x] => x
  | x :: xs => x ++ sep ++ joinWith sep xs

/-! ## Processing lock (`FileProcessorService._acquire_processing_lock`)

The lock is a single atomic Mongo `update_one` with filter
`{_id: run_id, processing_status: {$ne: "processing"}}` and update
`{$set: {processing_status: "processing", processing_error: None}}`;
the caller wins iff `modified_count > 0`. -/

/-- The slice of the Run document touched by the processing lock. -/
structure LockState where
  processing_status : ProcStatus
  processing_error : Option String
  deriving DecidableEq, Repr

/-- One atomic execution of `_acquire_processing_lock` against a run document
that exists. Returns the boolean result and the document afterwards.
The Mongo filter matches iff `processing_status` is not `processing`;
when matched, the `$set` always modifies the document, so
`modified_count > 0` holds exactly on a match. -/
def acquireProcessingLock (s : LockState) : Bool × LockState :=
  if s.processing_status ≠ ProcStatus.processing then
    (true, { processing_status := ProcStatus.processing, processing_error := none })
  else
    (false, s)

/-! ## Zombie / stale-run sweep (`cleanup_stale_runs` in `core/tasks.py`) -/

/-- The slice of a Run document read and written by `cleanup_stale_runs`.
Timestamps are integers (seconds). -/
structure SweepRun where
  status : RunStatus
  updated_at : Int
  created_at : Int
  error_summary : Option String
  finished_at : Option Int
  logs : List String
  deriving DecidableEq, Repr

/-- Reason written for a zombie running run (`core/tasks.py`). -/
def zombieReason : String := "Zombie execution detected (Heartbeat lost)"

/-- Reason written for a stuck queued run (`core/tasks.py`). -/
def stuckReason : String := "Stuck in queue > 1h"

/-- Marking a zombie run failed: pass 1 of the sweep, body of the loop.
The appended log line carries a wall-clock time prefix in the code; the
model keeps the message text only. -/
def markZombie (now : Int) (r : SweepRun) : SweepRun :=
  { r with
    status := RunStatus.failed
    error_summary := some zombieReason
    logs := r.logs ++ ["System: Marked as zombie (no heartbeat > 5m)"]
    finished_at := some now }

/-- Marking a stuck queued run failed: pass 2 of the sweep. -/
def markStuck (now : Int) (r : SweepRun) : SweepRun :=
  { r with
    status := RunStatus.failed
    error_summary := some stuckReason
    logs := r.logs ++ ["System: Timeout in queue"]
    finished_at := some now }

/-- Pass 1: `Run.find(status == "running", updated_at < now - 5 minutes)`,
each found run marked zombie-failed. Modelled as a map that touches exactly
the runs the query selects. -/
def sweepZombiePass (now : Int) (runs : List SweepRun) : List SweepRun :=
  runs.map fun r =>
    if r.status = RunStatus.running ∧ r.updated_at < now - 300 then markZombie now r else r

/-- Pass 2: `Run.find(status == "queued", created_at < now - 1 hour)`,
each found run marked stuck-failed. -/
def sweepStuckPass (now : Int) (runs : List SweepRun) : List SweepRun :=
  runs.map fun r =>
    if r.status = RunStatus.queued ∧ r.created_at < now - 3600 then markStuck now r else r

/-- The whole `cleanup_stale_runs` body: zombie pass then stuck-queued pass. -/
def cleanupStaleRuns (now : Int) (runs : List SweepRun) : List SweepRun :=
  sweepStuckPass now (sweepZombiePass now runs)

/-- Per-run effect of the sweep, combining both passes. A run marked zombie
by pass 1 is `failed`, hence never also matched by pass 2. -/
def sweepStep (now : Int) (r : SweepRun) : SweepRun :=
  if r.status = RunStatus.running ∧ r.updated_at < now - 300 then markZombie now r
  else if r.status = RunStatus.queued ∧ r.created_at < now - 3600 then markStuck now r
  else r

/-! ## Retry endpoint (`retry_run` in `app/console/routers/jobs.py`) -/

/-- The slice of the Run document read and written by `retry_run`. -/
structure RunDoc where
  attempt : Nat
  status : RunStatus
  error_summary : Option String
  started_at : Option Int
  finished_at : Option Int
  processing_status : ProcStatus
  selected_filename : Option String
  selected_sheet : Option String
  processing_error : Option String
  connector : Option String
  job_name : Option String
  celery_task_id : Option String
  deriving DecidableEq, Repr

/-- The slice of the Job document `retry_run` reads. -/
structure JobDoc where
  id : String
  workspace_id : String
  connector : String
  name : String
  deriving DecidableEq, Repr

/-- The Celery dispatch message produced by `scrape_task.delay(...)`. -/
structure DispatchMsg where
  job_id : String
  run_id : String
  workspace_id : String
  connector_name : String
  deriving DecidableEq, Repr

/-- `retry_run`: increments the attempt counter, resets status to `queued`,
clears error/timestamps/processing fields, backfills `connector` / `job_name`
when absent, re-dispatches `scrape_task` and stores the new task id.
`taskId` stands for the id Celery assigns to the dispatched task. -/
def retryRun (job : JobDoc) (runId : String) (r : RunDoc) (taskId : String) :
    RunDoc × DispatchMsg :=
  let r1 : RunDoc :=
    { r with
      attempt := r.attempt + 1
      status := RunStatus.queued
      error_summary := none
      started_at := none
      finished_at := none
      processing_status := ProcStatus.not_required
      selected_filename := none
      selected_sheet := none
      processing_error := none
      connector := if r.connector = none then some job.connector else r.connector
      job_name := if r.job_name = none then some job.name else r.job_name }
  let msg : DispatchMsg :=
    { job_id := job.id
      run_id := runId
      workspace_id := job.workspace_id
      connector_name := job.connector }
  ({ r1 with celery_task_id := some taskId }, msg)

/-! ## Orchestrator control flow (`scrape_task` in `core/tasks.py`)

`scrape_task` is embedded as a function from an *environment* — the outcomes
of the external calls it performs — to the resource/cleanup trace it leaves
behind.  The guarded `try/finally` block of the code starts at the
`connector.scrape` call site (`try:` right after `executor.start()` and the
VNC update); everything from slot acquisition up to there runs outside it. -/

/-- Outcomes of the external calls made by one execution of `scrape_task`. -/
structure ScrapeEnv where
  /-- `Run.get(run_id)` found the document. -/
  runExists : Bool
  /-- `ConnectorRegistry.get_connector` succeeded. -/
  connectorFound : Bool
  /-- `"jpmorgan" in connector_name.lower()`: local browser, slot pool skipped. -/
  useLocal : Bool
  /-- `_acquire_selenium_slot` returned a token within its timeout. -/
  slotAvailable : Bool
  /-- An exception was raised in the window after slot acquisition and before
  the guarded block: download-dir setup, `executor.start()` (opening the
  browser session), or the VNC-url update. -/
  sessionSetupRaises : Bool
  /-- `connector.scrape` raised an exception. -/
  scrapeRaises : Bool
  /-- `result.success` of a scrape that returned. -/
  scrapeSucceeds : Bool
  /-- The download-capture step raised (caught by its own `except` clause). -/
  captureRaises : Bool
  deriving DecidableEq, Repr

/-- Resource/cleanup trace of one `scrape_task` execution. `finalStatus` is
the last status written through `repo.save_run_status`; `raised` records
whether the task function re-raised an exception to Celery. -/
structure ScrapeTrace where
  slotAcquired : Bool
  slotReleased : Bool
  heartbeatStarted : Bool
  heartbeatStopped : Bool
  sessionOpened : Bool
  sessionClosed : Bool
  dirCreated : Bool
  dirRemoved : Bool
  finalStatus : Option RunStatus
  raised : Bool
  deriving DecidableEq, Repr

/-- Control flow of `_async_scrape` in `core/tasks.py`, lines 155–503:
run lookup, `save_run_status("running")`, heartbeat start, connector lookup
(early return on failure), slot acquisition for non-local connectors (early
return on timeout), download-dir creation, session opening, then the guarded
block whose `finally` stops the heartbeat, closes the session, releases the
slot when one was taken and removes the run download directory. An exception
in the setup window lands in the outer `except`, which only saves `failed`
and re-raises. -/
def scrapeTask (env : ScrapeEnv) : ScrapeTrace :=
  if ¬ env.runExists then
    { slotAcquired := false, slotReleased := false
      heartbeatStarted := false, heartbeatStopped := false
      sessionOpened := false, sessionClosed := false
      dirCreated := false, dirRemoved := false
      finalStatus := none, raised := false }
  else if ¬ env.connectorFound then
    -- `heartbeat_task.cancel()` then `return` inside the connector except-branch
    { slotAcquired := false, slotReleased := false
      heartbeatStarted := true, heartbeatStopped := true
      sessionOpened := false, sessionClosed := false
      dirCreated := false, dirRemoved := false
      finalStatus := some RunStatus.failed, raised := false }
  else if ¬ env.useLocal ∧ ¬ env.slotAvailable then
    -- slot timeout branch: save failed, cancel heartbeat, return
    { slotAcquired := false, slotReleased := false
      heartbeatStarted := true, heartbeatStopped := true
      sessionOpened := false, sessionClosed := false
      dirCreated := false, dirRemoved := false
      finalStatus := some RunStatus.failed, raised := false }
  else if env.sessionSetupRaises then
    -- exception between slot acquisition and the guarded block: the outer
    -- except saves `failed` and re-raises; no cleanup statement runs
    { slotAcquired := ¬ env.useLocal, slotReleased := false
      heartbeatStarted := true, heartbeatStopped := false
      sessionOpened := false, sessionClosed := false
      dirCreated := true, dirRemoved := false
      finalStatus := some RunStatus.failed, raised := true }
  else if env.scrapeRaises then
    -- guarded block: the finally clause runs, then the outer except saves
    -- `failed` and re-raises
    { slotAcquired := ¬ env.useLocal, slotReleased := ¬ env.useLocal
      heartbeatStarted := true, heartbeatStopped := true
      sessionOpened := true, sessionClosed := true
      dirCreated := true, dirRemoved := true
      finalStatus := some RunStatus.failed, raised := true }
  else
    -- scrape returned: status saved from `result.success`; the capture step
    -- catches its own exceptions; the finally clause runs; the task returns
    { slotAcquired := ¬ env.useLocal, slotReleased := ¬ env.useLocal
      heartbeatStarted := true, heartbeatStopped := true
      sessionOpened := true, sessionClosed := true
      dirCreated := true, dirRemoved := true
      finalStatus := some (if env.scrapeSucceeds then RunStatus.success else RunStatus.failed)
      raised := false }

/-- The cleanup obligations of spec step (10), as predicates over a trace:
whatever was started/acquired/created is stopped/released/removed. -/
def cleanupRan (t : ScrapeTrace) : Prop :=
  (t.heartbeatStarted = true → t.heartbeatStopped = true) ∧
  (t.sessionOpened = true → t.sessionClosed = true) ∧
  (t.slotAcquired = true → t.slotReleased = true) ∧
  (t.dirCreated = true → t.dirRemoved = true)

instance (t : ScrapeTrace) : Decidable (cleanupRan t) := by
  unfold cleanupRan; infer_instance

/-! ## Output validator (`FileProcessorService._validate_processed_outputs`) -/

/-- Outcome of `pd.read_csv` on a promoted output: either the parsed table
(its column header and row count) or the text of the raised exception. -/
inductive ParseOutcome where
  | err (msg : String)
  | ok (cols : List String) (rows : Nat)
  deriving DecidableEq, Repr

/-- A promoted output file as seen by the validator: its (base) name and the
pandas parse outcome used when the name ends in `.csv`. -/
structure OutFile where
  name : String
  parsed : ParseOutcome
  deriving DecidableEq, Repr

/-- `Path(name).suffix`: the final extension including the dot, `""` when
there is none (a bare leading-dot name has no suffix). -/
def fileSuffix (name : String) : String :=
  match splitOnChar '.' name with
  | [] => ""
  | [_] => ""
  | first :: rest =>
    if first = "" ∧ rest.length = 1 then ""
    else
      match rest.getLast? with
      | some last => "." ++ last
      | none => ""

/-- `is_excel_filename` from `core/services/excel_introspection.py`:
suffix lower-cased is one of `.xlsx`, `.xlsm`, `.xls`. -/
def isExcelFilename (name : String) : Bool :=
  let s := lowerStr (fileSuffix name)
  s = ".xlsx" ∨ s = ".xlsm" ∨ s = ".xls"

/-- The fixed required output columns, listed in the sorted order Python
produces for `sorted(required_cols - cols)`. -/
def requiredOutputCols : List String :=
  ["Ativo", "Caixa", "Data", "Moeda", "PU", "Quant", "SaldoBruto"]

/-- `sorted(required_cols - cols)`: required columns missing from `cols`. -/
def missingRequiredCols (cols : List String) : List String :=
  requiredOutputCols.filter (fun c => c ∉ cols)

/-- The data-loss message of `_validate_processed_outputs`. -/
def dataLossMsg (inputRows outputRows : Nat) : String :=
  "Data loss detected in processing: input_rows=" ++ toString inputRows ++
    ", output_rows=" ++ toString outputRows ++
    ". Output cannot have fewer rows than input."

/-- The `for path in file_paths` loop of `_validate_processed_outputs`.
Non-`.csv` entries are skipped; the first `.csv` entry is checked and the
function returns from inside the loop — with an error on a violation, with
`None` (pass) otherwise. Later entries are never examined. -/
def validateLoop : List OutFile → Option Nat → Option String
  | [], _ => none
  | f :: rest, expectedInputRows =>
    if lowerStr (fileSuffix f.name) ≠ ".csv" then validateLoop rest expectedInputRows
    else
      match f.parsed with
      | ParseOutcome.err m => some ("Failed to validate processed CSV output: " ++ m)
      | ParseOutcome.ok cols rows =>
        let missing := missingRequiredCols cols
        if missing ≠ [] then
          some ("Processed output missing required columns: " ++
            joinWith ", " missing ++ ".")
        else if rows = 0 then
          some "Processed output generated 0 rows."
        else
          match expectedInputRows with
          | some e => if 0 < e ∧ rows < e then some (dataLossMsg e rows) else none
          | none => none

/-- `_validate_processed_outputs(file_paths, expected_input_rows)`:
`None` means the attempt passes, `some reason` means it is rejected. -/
def validateProcessedOutputs (files : List OutFile) (expectedInputRows : Option Nat) :
    Option String :=
  if files = [] then some "Processor did not generate output files."
  else validateLoop files expectedInputRows

/-- The validation gate inside `process_files` (lines 315–333): on a
validation error the attempt returns no files and the reason, so nothing is
attached to the run; otherwise the renamed outputs are returned. -/
def processFilesGate (renamed : List OutFile) (expectedInputRows : Option Nat) :
    List OutFile × Option String :=
  match validateProcessedOutputs renamed expectedInputRows with
  | some err => ([], some err)
  | none => (renamed, none)

/-- The first `.csv` entry of the promoted outputs, in list order — the one
file the validator loop actually examines. -/
def firstCsv : List OutFile → Option OutFile
  | [] => Option.none
  | f :: rest =>
    if lowerStr (fileSuffix f.name) = ".csv" then some f else firstCsv rest

/-- The check the validator applies to the single CSV it examines (the body
of the loop of `_validate_processed_outputs` after the suffix test). -/
def checkOneCsv (f : OutFile) (expectedInputRows : Option Nat) : Option String :=
  match f.parsed with
  | ParseOutcome.err m => some ("Failed to validate processed CSV output: " ++ m)
  | ParseOutcome.ok cols rows =>
    let missing := missingRequiredCols cols
    if missing ≠ [] then
      some ("Processed output missing required columns: " ++
        joinWith ", " missing ++ ".")
    else if rows = 0 then
      some "Processed output generated 0 rows."
    else
      match expectedInputRows with
      | some e => if 0 < e ∧ rows < e then some (dataLossMsg e rows) else Option.none
      | Option.none => Option.none

/-! ## Run file entries (`RunFile` dicts in `Run.files`) -/

/-- One entry of `Run.files`. The code stores plain dicts; capture entries
carry `is_excel`/`sheet_options`, processed entries carry the processor
provenance fields. A single structure with defaults models both shapes. -/
structure RunFileEntry where
  file_type : FileType
  filename : String
  path : String
  size_bytes : Nat
  status : String
  is_latest : Bool
  is_excel : Bool := false
  sheet_options : List String := []
  processor_id : Option String := none
  processor_version : Option String := none
  processor_name : Option String := none
  processor_script_snapshot : Option String := none
  processor_source : Option String := none
  deriving DecidableEq, Repr

/-! ## Selection resolution (`FileProcessorService.resolve_and_process_post_scrape`
and `_pick_sheet_by_aliases`) -/

/-- Map one character to its lower-case base letter, stripping the combining
mark NFKD would split off. The table covers the Latin-1 accented letters of
the Portuguese sheet names this repository handles; every other character is
ASCII-lower-cased. Models `str.lower` + NFKD + drop-combining in
`_normalize_sheet_key`. -/
def deaccentLower (c : Char) : Char :=
  match c with
  | 'á' | 'à' | 'â' | 'ã' | 'ä' | 'Á' | 'À' | 'Â' | 'Ã' | 'Ä' => 'a'
  | 'é' | 'è' | 'ê' | 'ë' | 'É' | 'È' | 'Ê' | 'Ë' => 'e'
  | 'í' | 'ì' | 'î' | 'ï' | 'Í' | 'Ì' | 'Î' | 'Ï' => 'i'
  | 'ó' | 'ò' | 'ô' | 'õ' | 'ö' | 'Ó' | 'Ò' | 'Ô' | 'Õ' | 'Ö' => 'o'
  | 'ú' | 'ù' | 'û' | 'ü' | 'Ú' | 'Ù' | 'Û' | 'Ü' => 'u'
  | 'ç' | 'Ç' => 'c'
  | 'ñ' | 'Ñ' => 'n'
  | _ => c.toLower

/-- Is `c` an ASCII lower-case letter or digit? -/
def isLowerAlnum (c : Char) : Bool :=
  ('a' ≤ c ∧ c ≤ 'z') ∨ ('0' ≤ c ∧ c ≤ '9')

/-- `_normalize_sheet_key`: lower-case, strip diacritics, replace every
non-alphanumeric run by a single space, trim. -/
def normalizeSheetKey (s : String) : String :=
  let mapped := s.toList.map deaccentLower
  let cleaned := mapped.map fun c => if isLowerAlnum c then c else ' '
  joinWith " " (((charSplitOn ' ' cleaned).filter (· ≠ [])).map String.mk)

/-- The words of a normalized key, de-duplicated (Python builds a `set`). -/
def keyTokens (key : String) : List String :=
  (((charSplitOn ' ' key.toList).filter (· ≠ [])).map String.mk).dedup

/-- `len(c_tokens & o_tokens)`: size of the token-set intersection. -/
def tokenOverlap (cTokens oTokens : List String) : Nat :=
  (oTokens.filter (fun t => t ∈ cTokens)).length

/-- The candidate list of `_pick_sheet_by_aliases`: the preferred name when
truthy, then each truthy alias not already present. -/
def sheetCandidates (preferred : Option String) (aliases : List String) : List String :=
  let start :=
    match preferred with
    | some p => if p ≠ "" then [p] else []
    | none => []
  aliases.foldl (fun acc a => if a ≠ "" ∧ a ∉ acc then acc ++ [a] else acc) start

/-- Lookup in the `normalized_options` dict: it is built from `sheet_options`
in order, so for duplicate keys the last option wins. -/
def lookupNormalizedOption (sheetOptions : List String) (key : String) : Option String :=
  ((sheetOptions.filter (fun o => normalizeSheetKey o = key)).getLast?)

/-- The inner best-match scan of the token-overlap fallback: over
`sheet_options` in order, keep the first option with a strictly larger score
than everything before it. -/
def bestOverlap (sheetOptions : List String) (cTokens : List String) :
    Option String × Nat :=
  sheetOptions.foldl
    (fun acc opt =>
      let score := tokenOverlap cTokens (keyTokens (normalizeSheetKey opt))
      if score > acc.2 then (some opt, score) else acc)
    (none, 0)

/-- One candidate step of the token-overlap fallback: `some best` when the
scan found a truthy best option with score at least `max 1 (|c_tokens| / 2)`. -/
def overlapPick (sheetOptions : List String) (candidate : String) : Option String :=
  let cKey := normalizeSheetKey candidate
  if cKey = "" then none
  else
    let cTokens := keyTokens cKey
    if cTokens = [] then none
    else
      match bestOverlap sheetOptions cTokens with
      | (some b, score) =>
        if b ≠ "" ∧ score ≥ max 1 (cTokens.length / 2) then some b else none
      | (none, _) => none

/-- `_pick_sheet_by_aliases(sheet_options, preferred, aliases)`: exact
case/diacritic-insensitive match over the candidates first, then the
token-overlap fallback, `None` when nothing matches. -/
def pickSheetByAliases (sheetOptions : List String) (preferred : Option String)
    (aliases : List String) : Option String :=
  if sheetOptions = [] then none
  else
    let candidates := sheetCandidates preferred aliases
    match candidates.findSome? (fun c => lookupNormalizedOption sheetOptions (normalizeSheetKey c)) with
    | some hit => some hit
    | none => candidates.findSome? (overlapPick sheetOptions)

/-- The slice of the Run document that `resolve_and_process_post_scrape`
reads while resolving the selection. `selected_filename` is the run-level
selection field of the Run document; it is carried here to state whether the
resolution consults it. -/
structure PostScrapeRun where
  files : List RunFileEntry
  selected_filename : Option String
  selected_sheet : Option String
  deriving DecidableEq, Repr

/-- The slice of the Job document the resolution reads. -/
structure SelJob where
  last_selected_filename : Option String
  last_selected_sheet : Option String
  sheet_aliases : List String
  deriving DecidableEq, Repr

/-- Outcome of the selection-resolution phase of
`resolve_and_process_post_scrape` (the part before the processing lock). -/
inductive SelOutcome where
  | notRequired
  | pendingFileSelection
  | pendingSheetSelection (filename : String)
  | failedSel (reason : String)
  | resolved (filename : String) (sheet : Option String)
  deriving DecidableEq, Repr

/-- Selection resolution of `resolve_and_process_post_scrape`
(`core/services/file_processor.py`, lines 454–517). `sheetNames f` is the
disk oracle for `list_sheet_names` on the stored original `f` (`[]` models
both a missing file and an unreadable workbook). The filename priority is:
the job's persisted `last_selected_filename` when it appears verbatim among
the captured original names, else the unique original, else
`pending_file_selection`. For an Excel file the sheet priority is:
`_pick_sheet_by_aliases` over the job's persisted `last_selected_sheet` and
`sheet_aliases`, else the unique sheet, else `pending_sheet_selection`. -/
def originalEntries (run : PostScrapeRun) : List RunFileEntry :=
  run.files.filter (fun f => f.file_type = FileType.original)

/-- `names = [f.get("filename") for f in originals if f.get("filename")]`. -/
def originalNames (run : PostScrapeRun) : List String :=
  ((originalEntries run).map (fun f => f.filename)).filter (· ≠ "")

/-- The `if job.last_selected_filename and job.last_selected_filename in
names` test: the job's persisted selection when truthy and present verbatim
among the captured names. -/
def lastSelectionHit (job : SelJob) (names : List String) : Option String :=
  match job.last_selected_filename with
  | some l => if l ≠ "" ∧ l ∈ names then some l else Option.none
  | Option.none => Option.none

def resolvePostScrapeSelection (run : PostScrapeRun) (job : SelJob)
    (sheetNames : String → List String) : SelOutcome :=
  if originalEntries run = [] then SelOutcome.notRequired
  else
    let names := originalNames run
    match lastSelectionHit job names with
    | some sel => resolveSheetPhase sel job sheetNames
    | none =>
      match names with
      | [only] => resolveSheetPhase only job sheetNames
      | _ => SelOutcome.pendingFileSelection
where
  /-- The sheet phase (lines 487–517), entered with the resolved filename. -/
  resolveSheetPhase (sel : String) (job : SelJob) (sheetNames : String → List String) :
      SelOutcome :=
    if isExcelFilename sel then
      let sheetOptions := sheetNames sel
      if sheetOptions = [] then
        SelOutcome.failedSel ("Could not list sheets for " ++ sel ++ ".")
      else
        match pickSheetByAliases sheetOptions job.last_selected_sheet job.sheet_aliases with
        | some preferredSheet => SelOutcome.resolved sel (some preferredSheet)
        | none =>
          match sheetOptions with
          | [onlySheet] => SelOutcome.resolved sel (some onlySheet)
          | _ => SelOutcome.pendingSheetSelection sel
    else
      SelOutcome.resolved sel none

/-- A captured original entry used by the concrete selection scenarios. -/
def origEntry (name : String) : RunFileEntry :=
  { file_type := FileType.original
    filename := name
    path := "r1/original/" ++ name
    size_bytes := 10
    status := "ready"
    is_latest := false }

/-- A run carrying two captured originals and an explicit run-level
selection of `b.csv` (as an earlier `select-file` action would leave it). -/
def casRun : PostScrapeRun :=
  { files := [origEntry "a.csv", origEntry "b.csv"]
    selected_filename := some "b.csv"
    selected_sheet := Option.none }

/-- A job whose persisted last-selection is `a.csv`. -/
def casJob : SelJob :=
  { last_selected_filename := some "a.csv"
    last_selected_sheet := Option.none
    sheet_aliases := [] }

/-! ## Sandbox executor (`FileProcessorService._execute_processor`)

The child process writes only into a private staging directory; the model
tracks both directories as lists of file names and the subprocess outcome as
an oracle. -/

/-- Outcome of `subprocess.run([...python, script], timeout=300, ...)`. -/
inductive ExecOutcome where
  /-- The child exited with `code`, stderr captured as `stderrText`. -/
  | exited (code : Nat) (stderrText : String)
  /-- The 300-second wall-clock timeout elapsed (`subprocess.TimeoutExpired`);
  `stderrText` is the standard-error output captured up to that point, which
  the exception object carries but the code never reads. -/
  | timedOut (stderrText : String)
  deriving DecidableEq, Repr

/-- `f"{counter:02d}"`: two-digit zero padding. -/
def pad2 (n : Nat) : String :=
  if n < 10 then "0" ++ toString n else toString n

/-- `Path(name).stem`: the name without its final suffix. -/
def fileStem (name : String) : String :=
  String.mk (name.toList.take (name.toList.length - (fileSuffix name).toList.length))

/-- One numbered collision candidate `f"{stem}_{counter:02d}{suffix}"`. -/
def collisionCandidate (stem suffix : String) (counter : Nat) : String :=
  stem ++ "_" ++ pad2 counter ++ suffix

/-- The `while target.exists(): counter += 1` search, with enough fuel to
cover every occupied name (the code's loop always terminates because the
durable directory is finite). -/
def searchFreeName (durable : List String) (stem suffix : String) :
    Nat → Nat → String
  | 0, counter => collisionCandidate stem suffix counter
  | fuel + 1, counter =>
    let c := collisionCandidate stem suffix counter
    if c ∈ durable then searchFreeName durable stem suffix fuel (counter + 1) else c

/-- Numeric-suffix collision resolution of `_execute_processor`: the staged
name itself when free, otherwise the first free
`f"{stem}_{counter:02d}{suffix}"` for `counter = 1, 2, ...`. -/
def resolveCollision (durable : List String) (name : String) : String :=
  if name ∈ durable then
    searchFreeName durable (fileStem name) (fileSuffix name) (durable.length + 1) 1
  else name

/-- The promotion loop: staged files in sorted order, each renamed into the
durable area under its collision-resolved name. Returns the durable
directory afterwards and the promoted names in promotion order. -/
def promoteAll (durable : List String) : List String → List String × List String
  | [] => (durable, [])
  | f :: rest =>
    let target := resolveCollision durable f
    let next := promoteAll (durable ++ [target]) rest
    (next.1, target :: next.2)

/-- Result of one `_execute_processor` call. `failure` is the message of the
`RuntimeError` it raises, `none` on success; the staging directory is
emptied and removed by the `finally` clause on every path. -/
structure ExecResult where
  promoted : List String
  durable : List String
  stagingDeleted : Bool
  failure : Option String
  deriving DecidableEq, Repr

/-- `_execute_processor` (`core/services/file_processor.py`, lines 713–780):
on exit code 0 every regular staged file is promoted (sorted order,
collision-resolved rename); on a non-zero exit it raises
`RuntimeError(f"Processor failed: {stderr}")`; on timeout it raises
`RuntimeError("Processor timeout")`. The `finally` clause always deletes the
staging directory, so a failed attempt promotes nothing. -/
def executeProcessor (outcome : ExecOutcome) (staging durable : List String) :
    ExecResult :=
  match outcome with
  | ExecOutcome.exited 0 _ =>
    let sortedStaging := staging.mergeSort (· ≤ ·)
    let next := promoteAll durable sortedStaging
    { promoted := next.2, durable := next.1, stagingDeleted := true, failure := none }
  | ExecOutcome.exited _ stderrText =>
    { promoted := [], durable := durable, stagingDeleted := true
      failure := some ("Processor failed: " ++ stderrText) }
  | ExecOutcome.timedOut _ =>
    { promoted := [], durable := durable, stagingDeleted := true
      failure := some "Processor timeout" }

/-! ## Appending processed files (`FileProcessorService.append_processed_to_run`) -/

/-- A processor-provenance snapshot (`resolve_job_processing_script`). -/
structure ProcessorSnapshot where
  processor_id : Option String := none
  processor_version : Option String := none
  processor_name : Option String := none
  processor_script_snapshot : Option String := none
  processor_source : Option String := none
  deriving DecidableEq, Repr

/-- The new `processed` entry built for one promoted path. `basename` and
`relPath` stand for `os.path.basename` / `FileManager.to_artifact_relative`,
`size` for `FileManager.get_file_size`. -/
def mkProcessedEntry (snapshot : ProcessorSnapshot) (basename relPath : String)
    (size : Nat) : RunFileEntry :=
  { file_type := FileType.processed
    filename := basename
    path := relPath
    size_bytes := size
    status := "ready"
    is_latest := true
    processor_id := snapshot.processor_id
    processor_version := snapshot.processor_version
    processor_name := snapshot.processor_name
    processor_script_snapshot := snapshot.processor_script_snapshot
    processor_source := snapshot.processor_source }

/-- `append_processed_to_run` (lines 363–411). `pathOnDisk` is the disk
oracle for the existence check that drops stale metadata entries; an entry
with an empty `path` is kept unconditionally. Existing `processed` entries
that survive get `is_latest := false`; the new batch (one entry per promoted
path, each `is_latest := true`) is appended; the whole list is written back
with one `$set`. The new entries are described by the triples
`(basename, relPath, size)` of each promoted file. -/
def appendProcessedToRun (files : List RunFileEntry) (pathOnDisk : String → Bool)
    (snapshot : ProcessorSnapshot) (promoted : List (String × String × Nat)) :
    List RunFileEntry :=
  let kept := files.filter (fun f => f.path = "" ∨ pathOnDisk f.path)
  let cleared := kept.map fun f =>
    if f.file_type = FileType.processed then { f with is_latest := false } else f
  cleared ++ promoted.map (fun p => mkProcessedEntry snapshot p.1 p.2.1 p.2.2)

/-- A stale-marked processed entry from an earlier attempt, used by the
concrete scenarios. -/
def oldProcessedEntry : RunFileEntry :=
  { file_type := FileType.processed
    filename := "old.csv"
    path := "r1/processed/old.csv"
    size_bytes := 5
    status := "ready"
    is_latest := true
    processor_source := some "job" }

/-- A concrete provenance snapshot for the scenarios. -/
def snap0 : ProcessorSnapshot :=
  { processor_name := some "job:demo", processor_source := some "job" }

/-! ## Download capture (`scrape_task`, lines 367–432 of `core/tasks.py`) -/

/-- The `original` entry built for one captured download. `renamed` is the
basename after `FileManager.append_date_suffix`. -/
def mkCapturedEntry (renamed relPath : String) (size : Nat)
    (sheetOptions : List String) : RunFileEntry :=
  { file_type := FileType.original
    filename := renamed
    path := relPath
    size_bytes := size
    status := "ready"
    is_latest := false
    is_excel := isExcelFilename renamed
    sheet_options := if isExcelFilename renamed then sheetOptions else [] }

/-- The files write of the capture step: when at least one new download was
captured, `run.update({"$set": {"files": files_metadata}})` replaces the
whole `files` array with the captured `original` entries; when nothing was
captured the run document keeps its previous entries. Each captured file is
given by `(renamedBasename, relPath, size, sheetOptions)`. -/
def captureFilesWrite (run : PostScrapeRun)
    (captured : List (String × String × Nat × List String)) : PostScrapeRun :=
  let filesMetadata := captured.map fun c => mkCapturedEntry c.1 c.2.1 c.2.2.1 c.2.2.2
  if filesMetadata = [] then run
  else { run with files := filesMetadata }

/-! ## Declarative script compiler (`core/services/visual_processing.py`)

`build_script_from_visual_config` first normalizes the raw config against
`DEFAULT_VISUAL_CONFIG`, then renders one f-string template whose only holes
are `json.dumps(cfg, ensure_ascii=False, sort_keys=True)` and `repr(cfg)`. -/

/-- A raw JSON-ish value of the incoming visual-config dict. -/
inductive PyVal where
  | str (s : String)
  | bool (b : Bool)
  | int (n : Int)
  | none
  deriving DecidableEq, Repr

/-- Python `bool(v)` for the values a config dict can hold. -/
def pyTruthy : PyVal → Bool
  | PyVal.str s => s ≠ ""
  | PyVal.bool b => b
  | PyVal.int n => n ≠ 0
  | PyVal.none => false

/-- `str(v) if v is not None else ""` for string-typed config keys. -/
def pyToStr : PyVal → String
  | PyVal.str s => s
  | PyVal.bool b => if b then "True" else "False"
  | PyVal.int n => toString n
  | PyVal.none => ""

/-- The normalized visual config. Field order follows the
`DEFAULT_VISUAL_CONFIG` dict literal, which is also the insertion order
`repr(cfg)` prints. Field defaults are the `DEFAULT_VISUAL_CONFIG` values. -/
structure VisualConfig where
  ativo_mode : String := "direct"
  ativo_direct_cols : String := "Ativo, Nome Ativo"
  ativo_comp_base_cols : String := "Ativo Base, Ativo"
  ativo_comp_part2_cols : String := "Operacao, Operação"
  ativo_comp_part3_cols : String := "Emissor"
  ativo_comp_part4_primary_cols : String := "Vencimento"
  ativo_comp_part4_fallback_cols : String := "Codigo, Código"
  ativo_separator : String := " - "
  quant_cols : String := "q, Quant, Quantidade"
  pu_cols : String := "pu, PU, Preco Unitario"
  saldo_bruto_cols : String := "sb, SaldoBruto, Saldo Bruto"
  caixa_cols : String := "Caixa, Eh Caixa, e_caixa"
  moeda_fixa : String := "BRL"
  filter_zero_enabled : Bool := false
  filter_zero_cols : String := "sb, SaldoBruto, Saldo Bruto"
  filter_empty_enabled : Bool := false
  filter_empty_cols : String := "Ativo, Nome Ativo"
  only_enabled : Bool := false
  only_cols : String := "Caixa, Eh Caixa, e_caixa"
  only_mode : String := "sim"
  only_true_values : String := "1, true, sim, s, yes, y"
  deriving DecidableEq, Repr

/-- `dict(DEFAULT_VISUAL_CONFIG)`. -/
def defaultVisualConfig : VisualConfig := {}

/-- One step of the `for k, v in raw.items()` loop of
`normalize_visual_config`: known bool-typed keys take `bool(v)`, known
string-typed keys take `str(v)` (`""` for `None`), unknown keys are skipped. -/
def applyVisualKey (cfg : VisualConfig) (kv : String × PyVal) : VisualConfig :=
  match kv.1 with
  | "ativo_mode" => { cfg with ativo_mode := pyToStr kv.2 }
  | "ativo_direct_cols" => { cfg with ativo_direct_cols := pyToStr kv.2 }
  | "ativo_comp_base_cols" => { cfg with ativo_comp_base_cols := pyToStr kv.2 }
  | "ativo_comp_part2_cols" => { cfg with ativo_comp_part2_cols := pyToStr kv.2 }
  | "ativo_comp_part3_cols" => { cfg with ativo_comp_part3_cols := pyToStr kv.2 }
  | "ativo_comp_part4_primary_cols" => { cfg with ativo_comp_part4_primary_cols := pyToStr kv.2 }
  | "ativo_comp_part4_fallback_cols" => { cfg with ativo_comp_part4_fallback_cols := pyToStr kv.2 }
  | "ativo_separator" => { cfg with ativo_separator := pyToStr kv.2 }
  | "quant_cols" => { cfg with quant_cols := pyToStr kv.2 }
  | "pu_cols" => { cfg with pu_cols := pyToStr kv.2 }
  | "saldo_bruto_cols" => { cfg with saldo_bruto_cols := pyToStr kv.2 }
  | "caixa_cols" => { cfg with caixa_cols := pyToStr kv.2 }
  | "moeda_fixa" => { cfg with moeda_fixa := pyToStr kv.2 }
  | "filter_zero_enabled" => { cfg with filter_zero_enabled := pyTruthy kv.2 }
  | "filter_zero_cols" => { cfg with filter_zero_cols := pyToStr kv.2 }
  | "filter_empty_enabled" => { cfg with filter_empty_enabled := pyTruthy kv.2 }
  | "filter_empty_cols" => { cfg with filter_empty_cols := pyToStr kv.2 }
  | "only_enabled" => { cfg with only_enabled := pyTruthy kv.2 }
  | "only_cols" => { cfg with only_cols := pyToStr kv.2 }
  | "only_mode" => { cfg with only_mode := pyToStr kv.2 }
  | "only_true_values" => { cfg with only_true_values := pyToStr kv.2 }
  | _ => cfg

/-- `normalize_visual_config(raw)`: defaults for a non-dict input, otherwise
the defaults updated key by key, then the `ativo_mode` / `only_mode`
enumeration fix-ups. -/
def normalizeVisualConfig (raw : Option (List (String × PyVal))) : VisualConfig :=
  match raw with
  | Option.none => defaultVisualConfig
  | some items =>
    let cfg := items.foldl applyVisualKey defaultVisualConfig
    let cfg :=
      if cfg.ativo_mode = "direct" ∨ cfg.ativo_mode = "compose" then cfg
      else { cfg with ativo_mode := "direct" }
    if cfg.only_mode = "sim" ∨ cfg.only_mode = "nao" then cfg
    else { cfg with only_mode := "sim" }

/-- JSON string escaping as `json.dumps(..., ensure_ascii=False)` performs it
for the characters that matter here (backslash, quote, common controls);
other characters pass through unescaped. -/
def jsonEscape (s : String) : String :=
  s.toList.foldl
    (fun acc c =>
      if c = '\\' then acc ++ "\\\\"
      else if c = '"' then acc ++ "\\\""
      else if c = '\n' then acc ++ "\\n"
      else if c = '\t' then acc ++ "\\t"
      else if c = '\x0d' then acc ++ "\\r"
      else acc ++ String.singleton c)
    ""

/-- A JSON string literal. -/
def jsonStrLit (s : String) : String := "\"" ++ jsonEscape s ++ "\""

/-- A JSON boolean literal. -/
def jsonBoolLit (b : Bool) : String := if b then "true" else "false"

/-- `json.dumps(cfg, ensure_ascii=False, sort_keys=True)`: keys in sorted
order, `", "` / `": "` separators. -/
def cfgJson (c : VisualConfig) : String :=
  "\x7b" ++ joinWith ", "
    [ "\"ativo_comp_base_cols\": " ++ jsonStrLit c.ativo_comp_base_cols
    , "\"ativo_comp_part2_cols\": " ++ jsonStrLit c.ativo_comp_part2_cols
    , "\"ativo_comp_part3_cols\": " ++ jsonStrLit c.ativo_comp_part3_cols
    , "\"ativo_comp_part4_fallback_cols\": " ++ jsonStrLit c.ativo_comp_part4_fallback_cols
    , "\"ativo_comp_part4_primary_cols\": " ++ jsonStrLit c.ativo_comp_part4_primary_cols
    , "\"ativo_direct_cols\": " ++ jsonStrLit c.ativo_direct_cols
    , "\"ativo_mode\": " ++ jsonStrLit c.ativo_mode
    , "\"ativo_separator\": " ++ jsonStrLit c.ativo_separator
    , "\"caixa_cols\": " ++ jsonStrLit c.caixa_cols
    , "\"filter_empty_cols\": " ++ jsonStrLit c.filter_empty_cols
    , "\"filter_empty_enabled\": " ++ jsonBoolLit c.filter_empty_enabled
    , "\"filter_zero_cols\": " ++ jsonStrLit c.filter_zero_cols
    , "\"filter_zero_enabled\": " ++ jsonBoolLit c.filter_zero_enabled
    , "\"moeda_fixa\": " ++ jsonStrLit c.moeda_fixa
    , "\"only_cols\": " ++ jsonStrLit c.only_cols
    , "\"only_enabled\": " ++ jsonBoolLit c.only_enabled
    , "\"only_mode\": " ++ jsonStrLit c.only_mode
    , "\"only_true_values\": " ++ jsonStrLit c.only_true_values
    , "\"pu_cols\": " ++ jsonStrLit c.pu_cols
    , "\"quant_cols\": " ++ jsonStrLit c.quant_cols
    , "\"saldo_bruto_cols\": " ++ jsonStrLit c.saldo_bruto_cols
    ] ++ "\x7d"

/-- The apostrophe character, written by code point to keep string literals
plain. -/
def aposChar : Char := Char.ofNat 39

/-- Python `repr` escaping for a single-quoted string literal: backslash,
apostrophe and common controls; printable characters (including accented
letters) pass through. -/
def pyReprEscape (s : String) : String :=
  s.toList.foldl
    (fun acc c =>
      if c = '\\' then acc ++ "\\\\"
      else if c = aposChar then acc ++ "\\" ++ String.singleton aposChar
      else if c = '\n' then acc ++ "\\n"
      else if c = '\t' then acc ++ "\\t"
      else if c = '\x0d' then acc ++ "\\r"
      else acc ++ String.singleton c)
    ""

/-- A Python single-quoted string literal as `repr` prints it. -/
def pyStrLit (s : String) : String :=
  String.singleton aposChar ++ pyReprEscape s ++ String.singleton aposChar

/-- A Python boolean literal as `repr` prints it. -/
def pyBoolLit (b : Bool) : String := if b then "True" else "False"

/-- `repr(cfg)`: keys in insertion order (the `DEFAULT_VISUAL_CONFIG`
order), `", "` / `": "` separators. -/
def cfgPy (c : VisualConfig) : String :=
  "\x7b" ++ joinWith ", "
    [ pyStrLit "ativo_mode" ++ ": " ++ pyStrLit c.ativo_mode
    , pyStrLit "ativo_direct_cols" ++ ": " ++ pyStrLit c.ativo_direct_cols
    , pyStrLit "ativo_comp_base_cols" ++ ": " ++ pyStrLit c.ativo_comp_base_cols
    , pyStrLit "ativo_comp_part2_cols" ++ ": " ++ pyStrLit c.ativo_comp_part2_cols
    , pyStrLit "ativo_comp_part3_cols" ++ ": " ++ pyStrLit c.ativo_comp_part3_cols
    , pyStrLit "ativo_comp_part4_primary_cols" ++ ": " ++ pyStrLit c.ativo_comp_part4_primary_cols
    , pyStrLit "ativo_comp_part4_fallback_cols" ++ ": " ++ pyStrLit c.ativo_comp_part4_fallback_cols
    , pyStrLit "ativo_separator" ++ ": " ++ pyStrLit c.ativo_separator
    , pyStrLit "quant_cols" ++ ": " ++ pyStrLit c.quant_cols
    , pyStrLit "pu_cols" ++ ": " ++ pyStrLit c.pu_cols
    , pyStrLit "saldo_bruto_cols" ++ ": " ++ pyStrLit c.saldo_bruto_cols
    , pyStrLit "caixa_cols" ++ ": " ++ pyStrLit c.caixa_cols
    , pyStrLit "moeda_fixa" ++ ": " ++ pyStrLit c.moeda_fixa
    , pyStrLit "filter_zero_enabled" ++ ": " ++ pyBoolLit c.filter_zero_enabled
    , pyStrLit "filter_zero_cols" ++ ": " ++ pyStrLit c.filter_zero_cols
    , pyStrLit "filter_empty_enabled" ++ ": " ++ pyBoolLit c.filter_empty_enabled
    , pyStrLit "filter_empty_cols" ++ ": " ++ pyStrLit c.filter_empty_cols
    , pyStrLit "only_enabled" ++ ": " ++ pyBoolLit c.only_enabled
    , pyStrLit "only_cols" ++ ": " ++ pyStrLit c.only_cols
    , pyStrLit "only_mode" ++ ": " ++ pyStrLit c.only_mode
    , pyStrLit "only_true_values" ++ ": " ++ pyStrLit c.only_true_values
    ] ++ "\x7d"

/-- The fixed tail of the generated script (template lines after the
`cfg = ...` line, with the doubled f-string braces rendered; literal braces
are written as code points). -/
def visualScriptBody : String :=
"df = df_input.copy() if df_input is not None else pd.DataFrame()
df.columns = [str(c).strip() for c in df.columns]

def aliases(value):
    return [x.strip() for x in str(value or \"\").split(\",\") if x.strip()]

def pick_col(candidates):
    lower_map = \x7bstr(c).strip().lower(): c for c in df.columns\x7d
    for name in candidates:
        key = str(name).strip().lower()
        if key in lower_map:
            return lower_map[key]
    return None

def txt(candidates, default=\"\"):
    col = pick_col(candidates)
    if col:
        return df[col].astype(str).fillna(\"\").str.strip()
    return pd.Series([default] * len(df), index=df.index)

def num(candidates, default=0.0):
    col = pick_col(candidates)
    if col:
        raw = df[col]
        parsed = pd.to_numeric(raw, errors=\"coerce\")
        if parsed.notna().any():
            return parsed.fillna(default)
        # Fallback para formato pt-BR (1.234,56)
        return raw.apply(ptbr_to_float).fillna(default)
    return pd.Series([default] * len(df), index=df.index)

def _clean_text(v):
    s = str(v).strip()
    if s.lower() in [\"\", \"-\", \"nan\", \"none\"]:
        return \"\"
    return s

def _join_non_empty(parts, sep):
    vals = [_clean_text(x) for x in parts]
    vals = [v for v in vals if v]
    return sep.join(vals)

ativo_direct = txt(aliases(cfg.get(\"ativo_direct_cols\")))
ativo_base = txt(aliases(cfg.get(\"ativo_comp_base_cols\")))
ativo_p2 = txt(aliases(cfg.get(\"ativo_comp_part2_cols\")))
ativo_p3 = txt(aliases(cfg.get(\"ativo_comp_part3_cols\")))
ativo_p4_primary = txt(aliases(cfg.get(\"ativo_comp_part4_primary_cols\")))
ativo_p4_fallback = txt(aliases(cfg.get(\"ativo_comp_part4_fallback_cols\")))
qtd = num(aliases(cfg.get(\"quant_cols\")), 0.0)
pu = num(aliases(cfg.get(\"pu_cols\")), 0.0)
sb = num(aliases(cfg.get(\"saldo_bruto_cols\")), 0.0)
caixa_raw = txt(aliases(cfg.get(\"caixa_cols\"))).str.lower()
caixa = caixa_raw.isin([\"1\", \"true\", \"sim\", \"s\", \"yes\", \"y\"])
caixa = caixa | caixa_raw.str.contains(\"caixa|conta corrente|saldo em conta\", na=False)
ativo_hint = ativo_direct.str.lower()
caixa = caixa | ativo_hint.str.contains(\"conta corrente|saldo em conta\", na=False)
data_ref = report_date or data_do_arquivo(arquivo)

if cfg.get(\"ativo_mode\") == \"compose\":
    p4 = ativo_p4_primary.where(ativo_p4_primary.astype(str).str.strip().ne(\"\"), ativo_p4_fallback)
    ativo = pd.DataFrame(\x7b
        \"a\": ativo_base,
        \"b\": ativo_p2,
        \"c\": ativo_p3,
        \"d\": p4,
    \x7d).apply(lambda r: _join_non_empty([r[\"a\"], r[\"b\"], r[\"c\"], r[\"d\"]], cfg.get(\"ativo_separator\") or \" - \"), axis=1)
else:
    ativo = ativo_direct

out = pd.DataFrame(\x7b
    \"Data\": data_ref,
    \"Carteira\": carteira,
    \"Ativo\": ativo,
    \"Quant\": qtd.where(~caixa, sb),
    \"PU\": pu.where(~caixa, 1.0),
    \"SaldoBruto\": sb,
    \"Caixa\": caixa.map(\x7bTrue: \"Sim\", False: \"Não\"\x7d),
    \"Moeda\": cfg.get(\"moeda_fixa\") or \"BRL\",
\x7d)

mask = pd.Series([True] * len(out), index=out.index)
if cfg.get(\"filter_zero_enabled\"):
    fz = num(aliases(cfg.get(\"filter_zero_cols\")), 0.0)
    mask &= fz.ne(0)
if cfg.get(\"filter_empty_enabled\"):
    fe = txt(aliases(cfg.get(\"filter_empty_cols\")))
    mask &= fe.astype(str).str.strip().ne(\"\")
if cfg.get(\"only_enabled\"):
    only_raw = txt(aliases(cfg.get(\"only_cols\"))).str.lower()
    only_true = [x.strip().lower() for x in aliases(cfg.get(\"only_true_values\"))]
    only_flag = only_raw.isin(only_true)
    mask &= only_flag if cfg.get(\"only_mode\") == \"sim\" else ~only_flag

out = out.loc[mask].reset_index(drop=True)
return out
"

/-- Rendering of the compiler's f-string: header comments with the JSON
serialization, the `cfg = repr(cfg)` line, then the fixed body. -/
def renderVisualScript (c : VisualConfig) : String :=
  "# VISUAL_BUILDER_JOB_V3\n# VISUAL_CONFIG_JSON: " ++ cfgJson c ++
    "\ncfg = " ++ cfgPy c ++ "\n\n" ++ visualScriptBody

/-- `build_script_from_visual_config(raw)`: normalize, then render. -/
def buildScriptFromVisualConfig (raw : Option (List (String × PyVal))) : String :=
  renderVisualScript (normalizeVisualConfig raw)

/-! ## Helper lemmas -/

/-- The two sweep passes compose to the per-run `sweepStep`: a run the
zombie pass fails is no longer `queued`, so the stuck-queue pass skips it. -/
theorem cleanupStaleRuns_eq_map (now : Int) (runs : List SweepRun) :
    cleanupStaleRuns now runs = runs.map (sweepStep now) := by
  unfold cleanupStaleRuns sweepStuckPass sweepZombiePass
  rw [List.map_map]
  refine List.map_congr_left ?_
  intro r _
  by_cases h1 : r.status = RunStatus.running ∧ r.updated_at < now - 300
  · have h2 : ¬ ((markZombie now r).status = RunStatus.queued ∧
        (markZombie now r).created_at < now - 3600) := by
      simp [markZombie]
    simp [sweepStep, Function.comp, h1, h2]
  · by_cases h2 : r.status = RunStatus.queued ∧ r.created_at < now - 3600
    · simp [sweepStep, Function.comp, h1, h2]
    · simp [sweepStep, Function.comp, h1, h2]

/-- Promotion returns one target per staged file. -/
theorem promoteAll_length (d : List String) (l : List String) :
    (promoteAll d l).2.length = l.length := by
  induction l generalizing d with
  | nil => simp [promoteAll]
  | cons f rest ih => simp [promoteAll, ih]

/-- Promotion appends exactly the promoted targets to the durable area. -/
theorem promoteAll_durable (d : List String) (l : List String) :
    (promoteAll d l).1 = d ++ (promoteAll d l).2 := by
  induction l generalizing d with
  | nil => simp [promoteAll]
  | cons f rest ih =>
    simp only [promoteAll]
    rw [ih]
    simp

/-! ## Claim theorems -/

/-- C2: the processing lock is a compare-and-swap on `processing_status`.
From any state not already `processing`, the first of two serialized
`_acquire_processing_lock` calls returns `True` and flips the status to
`processing`; the second returns `False` ("already processing") and leaves
the document unchanged — so of two concurrent `process` requests exactly one
reaches `processing`, in either interleaving of the two atomic updates. -/
theorem processing_lock_mutual_exclusion (s : LockState)
    (h : s.processing_status ≠ ProcStatus.processing) :
    (acquireProcessingLock s).1 = true ∧
    (acquireProcessingLock s).2.processing_status = ProcStatus.processing ∧
    (acquireProcessingLock (acquireProcessingLock s).2).1 = false ∧
    (acquireProcessingLock (acquireProcessingLock s).2).2 = (acquireProcessingLock s).2 := by
  simp [acquireProcessingLock, h]

/-- Witness for C2 at a concrete run state. -/
theorem processing_lock_mutual_exclusion_witness :
    (acquireProcessingLock ⟨ProcStatus.not_required, some "old"⟩).1 = true ∧
    (acquireProcessingLock ⟨ProcStatus.not_required, some "old"⟩).2.processing_status
      = ProcStatus.processing ∧
    (acquireProcessingLock
      (acquireProcessingLock ⟨ProcStatus.not_required, some "old"⟩).2).1 = false ∧
    (acquireProcessingLock
      (acquireProcessingLock ⟨ProcStatus.not_required, some "old"⟩).2).2 =
      (acquireProcessingLock ⟨ProcStatus.not_required, some "old"⟩).2 :=
  processing_lock_mutual_exclusion _ (by decide)

/-- C5: the periodic sweep equals the per-run `sweepStep` applied to every
run, and `sweepStep` marks a `running` run older than the 5-minute heartbeat
threshold `failed` with a reason containing "heartbeat", marks a `queued`
run older than the 1-hour threshold `failed` with a reason containing
"stuck in queue", and leaves every other run unchanged. -/
theorem cleanup_stale_runs_spec (now : Int) (runs : List SweepRun) :
    cleanupStaleRuns now runs = runs.map (sweepStep now) ∧
    ∀ r : SweepRun,
      (r.status = RunStatus.running → r.updated_at < now - 300 →
        (sweepStep now r).status = RunStatus.failed ∧
        (sweepStep now r).error_summary = some zombieReason ∧
        containsStrCI "heartbeat" zombieReason = true) ∧
      (r.status = RunStatus.queued → r.created_at < now - 3600 →
        (sweepStep now r).status = RunStatus.failed ∧
        (sweepStep now r).error_summary = some stuckReason ∧
        containsStrCI "stuck in queue" stuckReason = true) ∧
      (¬ (r.status = RunStatus.running ∧ r.updated_at < now - 300) →
       ¬ (r.status = RunStatus.queued ∧ r.created_at < now - 3600) →
        sweepStep now r = r) := by
  refine ⟨cleanupStaleRuns_eq_map now runs, ?_⟩
  intro r
  refine ⟨?_, ?_, ?_⟩
  · intro hs ht
    have hcond : r.status = RunStatus.running ∧ r.updated_at < now - 300 := ⟨hs, ht⟩
    simp [sweepStep, hcond, markZombie]
    decide
  · intro hs ht
    have hnot : ¬ (r.status = RunStatus.running ∧ r.updated_at < now - 300) := by
      intro hc; rw [hs] at hc; exact absurd hc.1 (by decide)
    have hcond : r.status = RunStatus.queued ∧ r.created_at < now - 3600 := ⟨hs, ht⟩
    simp [sweepStep, hnot, hcond, markStuck]
    decide
  · intro h1 h2
    simp [sweepStep, h1, h2]

/-- Witness for C5: a `running` run whose heartbeat is 6 minutes stale is
failed with the zombie reason. -/
theorem cleanup_stale_runs_spec_witness :
    (SweepRun.mk RunStatus.running 0 0 Option.none Option.none []).status
        = RunStatus.running ∧
    (SweepRun.mk RunStatus.running 0 0 Option.none Option.none []).updated_at
        < 360 - 300 ∧
    (sweepStep 360 (SweepRun.mk RunStatus.running 0 0 Option.none Option.none [])).status
        = RunStatus.failed ∧
    (sweepStep 360
        (SweepRun.mk RunStatus.running 0 0 Option.none Option.none [])).error_summary
        = some zombieReason ∧
    containsStrCI "heartbeat" zombieReason = true := by
  have h := (cleanup_stale_runs_spec 360
      [SweepRun.mk RunStatus.running 0 0 Option.none Option.none []]).2
    (SweepRun.mk RunStatus.running 0 0 Option.none Option.none [])
  have h1 := h.1 rfl (by decide)
  exact ⟨rfl, by decide, h1.1, h1.2.1, h1.2.2⟩

/-- C6: `retry_run` increments the attempt counter by one, sets the status
back to `queued`, clears the error summary, both timestamps and all four
processing fields, and dispatches a fresh `scrape_task` for the run with the
job's identifiers. -/
theorem retry_run_spec (job : JobDoc) (runId : String) (r : RunDoc) (taskId : String) :
    ((retryRun job runId r taskId).1.attempt = r.attempt + 1) ∧
    ((retryRun job runId r taskId).1.status = RunStatus.queued) ∧
    ((retryRun job runId r taskId).1.error_summary = none) ∧
    ((retryRun job runId r taskId).1.started_at = none) ∧
    ((retryRun job runId r taskId).1.finished_at = none) ∧
    ((retryRun job runId r taskId).1.processing_status = ProcStatus.not_required) ∧
    ((retryRun job runId r taskId).1.selected_filename = none) ∧
    ((retryRun job runId r taskId).1.selected_sheet = none) ∧
    ((retryRun job runId r taskId).1.processing_error = none) ∧
    ((retryRun job runId r taskId).2 =
      { job_id := job.id, run_id := runId, workspace_id := job.workspace_id,
        connector_name := job.connector }) := by
  refine ⟨rfl, rfl, rfl, rfl, rfl, rfl, rfl, rfl, rfl, rfl⟩

/-- C7: the declarative compiler is deterministic — it factors through
config normalization into a pure rendering, so any two compilations of the
same (normalized) visual config produce byte-identical script text. -/
theorem build_script_deterministic (r₁ r₂ : Option (List (String × PyVal)))
    (h : normalizeVisualConfig r₁ = normalizeVisualConfig r₂) :
    buildScriptFromVisualConfig r₁ = buildScriptFromVisualConfig r₂ := by
  unfold buildScriptFromVisualConfig
  rw [h]

/-- Witness for C7: the empty raw dict and the non-dict input normalize to
the same config, hence compile to the same text. -/
theorem build_script_deterministic_witness :
    buildScriptFromVisualConfig (some []) = buildScriptFromVisualConfig Option.none :=
  build_script_deterministic (some []) Option.none rfl

/-- C1 (counterexample to the claim as stated): when opening the browser
session raises — after the admission slot was acquired and the run download
directory created — the exception lands in the outer `except`, which only
saves `failed` and re-raises: the slot is not released, the directory is not
removed and the heartbeat is not cancelled by the task, so the guaranteed
cleanup stage does not run for this exception. -/
theorem scrape_task_cleanup_counterexample :
    (scrapeTask (ScrapeEnv.mk true true false true true false false false)).slotAcquired
      = true ∧
    (scrapeTask (ScrapeEnv.mk true true false true true false false false)).slotReleased
      = false ∧
    (scrapeTask (ScrapeEnv.mk true true false true true false false false)).dirCreated
      = true ∧
    (scrapeTask (ScrapeEnv.mk true true false true true false false false)).dirRemoved
      = false ∧
    ¬ cleanupRan (scrapeTask (ScrapeEnv.mk true true false true true false false false)) := by
  refine ⟨rfl, rfl, rfl, rfl, ?_⟩
  decide

/-- C1 (amended): for every execution whose run document exists and in which
no exception is raised in the window between slot acquisition and the
guarded connector block, the cleanup stage runs: whatever was started,
opened, acquired or created (heartbeat, session, slot, download directory)
is stopped, closed, released or removed — regardless of whether the
connector call succeeds, returns failure, or raises, and regardless of the
file-capture outcome. Early-return paths (connector missing, slot timeout)
also stop the heartbeat, having acquired nothing else. -/
theorem scrape_task_guaranteed_cleanup (env : ScrapeEnv)
    (hrun : env.runExists = true) (hsetup : env.sessionSetupRaises = false) :
    cleanupRan (scrapeTask env) := by
  obtain ⟨r, c, u, s, ss, sr, sc, cr⟩ := env
  revert hrun hsetup
  cases r <;> cases c <;> cases u <;> cases s <;> cases ss <;> cases sr <;>
    cases sc <;> cases cr <;> decide

/-- Witness for C1 (amended): cleanup runs when the connector itself
raises. -/
theorem scrape_task_guaranteed_cleanup_witness :
    cleanupRan (scrapeTask (ScrapeEnv.mk true true false true false true false false)) :=
  scrape_task_guaranteed_cleanup (ScrapeEnv.mk true true false true false true false false)
    rfl rfl

/-- C8 (counterexample to the claim as stated): on a timeout the failure
reason is the fixed text "Processor timeout" — the standard-error output
captured up to the timeout (here "boom") does not become the failure reason
and is not even contained in it. -/
theorem execute_processor_timeout_counterexample :
    (executeProcessor (ExecOutcome.timedOut "boom") ["out.csv"] []).failure
      = some "Processor timeout" ∧
    (executeProcessor (ExecOutcome.timedOut "boom") ["out.csv"] []).promoted = [] ∧
    containsStr "boom" "Processor timeout" = false := by
  refine ⟨rfl, rfl, ?_⟩
  decide

/-- C8 (amended): on exit code 0 within the timeout, every regular staged
file is promoted (one collision-resolved rename per staged file, appended to
the durable area) and the staging area is deleted with no failure; on a
non-zero exit nothing is promoted, the staging area is discarded and the
failure reason is "Processor failed: " followed by the captured stderr; on a
timeout nothing is promoted, the staging area is discarded and the failure
reason is the fixed text "Processor timeout". -/
theorem execute_processor_spec (staging durable : List String)
    (stderrText : String) (c : Nat) :
    ((executeProcessor (ExecOutcome.exited 0 stderrText) staging durable).failure
        = none ∧
      (executeProcessor (ExecOutcome.exited 0 stderrText) staging durable).stagingDeleted
        = true ∧
      (executeProcessor (ExecOutcome.exited 0 stderrText) staging durable).promoted.length
        = staging.length ∧
      (executeProcessor (ExecOutcome.exited 0 stderrText) staging durable).durable
        = durable ++
          (executeProcessor (ExecOutcome.exited 0 stderrText) staging durable).promoted) ∧
    (c ≠ 0 →
      executeProcessor (ExecOutcome.exited c stderrText) staging durable =
        ExecResult.mk [] durable true (some ("Processor failed: " ++ stderrText))) ∧
    executeProcessor (ExecOutcome.timedOut stderrText) staging durable =
      ExecResult.mk [] durable true (some "Processor timeout") := by
  refine ⟨⟨rfl, rfl, ?_, ?_⟩, ?_, rfl⟩
  · show (promoteAll durable (staging.mergeSort (· ≤ ·))).2.length = staging.length
    rw [promoteAll_length]
    exact List.length_mergeSort staging
  · exact promoteAll_durable _ _
  · intro hc
    cases c with
    | zero => exact absurd rfl hc
    | succ n => rfl

/-- Witness for C8 at concrete inputs: a non-zero exit carries the stderr
text in its reason and promotes nothing. -/
theorem execute_processor_spec_witness :
    executeProcessor (ExecOutcome.exited 1 "boom") ["out.csv"] ["out.csv"] =
      ExecResult.mk [] ["out.csv"] true (some ("Processor failed: " ++ "boom")) :=
  (execute_processor_spec ["out.csv"] ["out.csv"] "boom" 1).2.1 (by decide)

/-- The validator loop returns exactly the check of the first `.csv` entry
(skipping non-CSV names) and passes a list without any CSV. -/
theorem validateLoop_eq_firstCsv (files : List OutFile) (expRows : Option Nat) :
    validateLoop files expRows =
      (match firstCsv files with
       | some f => checkOneCsv f expRows
       | Option.none => Option.none) := by
  induction files with
  | nil => rfl
  | cons f rest ih =>
    by_cases h : lowerStr (fileSuffix f.name) = ".csv"
    · simp [validateLoop, firstCsv, h, checkOneCsv]
    · simp [validateLoop, firstCsv, h, ih]

/-- No required column is missing iff every required column is present. -/
theorem missingRequiredCols_eq_nil (cols : List String) :
    missingRequiredCols cols = [] ↔ ∀ c ∈ requiredOutputCols, c ∈ cols := by
  simp [missingRequiredCols, List.filter_eq_nil_iff]

/-- C3 (counterexample to the claim as stated): an attempt whose first CSV
output is valid passes validation as a whole even though its second CSV
output is missing every required column and has zero rows — so not every
delimited tabular output is validated. -/
theorem validator_counterexample :
    validateProcessedOutputs
      [OutFile.mk "positions_a.csv" (ParseOutcome.ok requiredOutputCols 5),
       OutFile.mk "positions_b.csv" (ParseOutcome.ok [] 0)] (some 3) = Option.none ∧
    checkOneCsv (OutFile.mk "positions_b.csv" (ParseOutcome.ok [] 0)) (some 3)
      ≠ Option.none := by
  refine ⟨rfl, ?_⟩
  decide

/-- C3 (amended): validation examines exactly the first `.csv` output in
promotion order — that file must contain all required output columns, at
least one row, and at least as many rows as the measured input (when that
measurement is positive); subsequent outputs are not examined. Any recorded
violation makes `process_files` return no artifacts together with the
specific reason, so nothing is attached to the run. -/
theorem validator_spec (files : List OutFile) (expRows : Option Nat)
    (hne : files ≠ []) :
    (validateProcessedOutputs files expRows =
      (match firstCsv files with
       | some f => checkOneCsv f expRows
       | Option.none => Option.none)) ∧
    (∀ name cols rows e,
      checkOneCsv (OutFile.mk name (ParseOutcome.ok cols rows)) (some e) = Option.none ↔
        ((∀ c ∈ requiredOutputCols, c ∈ cols) ∧ 1 ≤ rows ∧ (0 < e → e ≤ rows))) ∧
    (∀ renamed exp err, validateProcessedOutputs renamed exp = some err →
      processFilesGate renamed exp = ([], some err)) := by
  refine ⟨?_, ?_, ?_⟩
  · rw [validateProcessedOutputs, if_neg hne, validateLoop_eq_firstCsv]
  · intro name cols rows e
    constructor
    · intro hnone
      by_cases hm : missingRequiredCols cols = []
      · simp only [checkOneCsv, hm] at hnone
        refine ⟨(missingRequiredCols_eq_nil cols).mp hm, ?_, ?_⟩
        all_goals
          by_cases hr : rows = 0 <;> by_cases hl : 0 < e ∧ rows < e
        all_goals simp [hr, hl] at hnone ⊢
        all_goals omega
      · simp [checkOneCsv, hm] at hnone
    · rintro ⟨hall, hrows, hloss⟩
      have hm := (missingRequiredCols_eq_nil cols).mpr hall
      have h1 : ¬ (missingRequiredCols cols ≠ []) := fun h => h hm
      have h2 : rows ≠ 0 := by omega
      have h3 : ¬ (0 < e ∧ rows < e) := by
        rintro ⟨he, hr⟩
        have := hloss he
        omega
      simp only [checkOneCsv, h1, if_false, if_neg h2, if_neg h3]
  · intro renamed exp err h
    simp [processFilesGate, h]

/-- Witness for C3 (amended) on a one-file attempt. -/
theorem validator_spec_witness :
    validateProcessedOutputs [OutFile.mk "p.csv" (ParseOutcome.ok requiredOutputCols 5)]
        (some 3) =
      (match firstCsv [OutFile.mk "p.csv" (ParseOutcome.ok requiredOutputCols 5)] with
       | some f => checkOneCsv f (some 3)
       | Option.none => Option.none) :=
  (validator_spec [OutFile.mk "p.csv" (ParseOutcome.ok requiredOutputCols 5)] (some 3)
    (by decide)).1

/-- C4 (counterexample to the claim as stated): the post-scrape
auto-resolution never consults the run-level selection. With a run whose
run-level `selected_filename` is `b.csv` — itself one of the captured
originals — and a job whose persisted last-selection is `a.csv`, the
resolution picks `a.csv` (the job preference), not the explicit run-level
selection `b.csv` the claim puts first. -/
theorem resolve_selection_counterexample :
    resolvePostScrapeSelection casRun casJob (fun _ => []) =
      SelOutcome.resolved "a.csv" Option.none ∧
    casRun.selected_filename = some "b.csv" ∧
    "b.csv" ∈ originalNames casRun ∧
    SelOutcome.resolved "a.csv" Option.none ≠ SelOutcome.resolved "b.csv" Option.none := by
  refine ⟨rfl, rfl, ?_, ?_⟩
  · decide
  · decide

/-- C4 (amended): the post-scrape auto-resolution order is — the job's
persisted last-selection (filename matched verbatim among captured original
names; sheet matched case/diacritic-insensitively with alias fallback via
`_pick_sheet_by_aliases`), otherwise the unique candidate when exactly one
file/sheet exists, otherwise the appropriate pending sub-state; the
run-level `selected_filename` field has no influence on the outcome, and an
empty capture yields `not_required`. -/
theorem resolve_post_scrape_priority (run : PostScrapeRun) (job : SelJob)
    (sheetNames : String → List String) :
    (∀ sel, resolvePostScrapeSelection { run with selected_filename := sel } job sheetNames
        = resolvePostScrapeSelection run job sheetNames) ∧
    (originalEntries run = [] →
      resolvePostScrapeSelection run job sheetNames = SelOutcome.notRequired) ∧
    (∀ l, originalEntries run ≠ [] →
      lastSelectionHit job (originalNames run) = some l →
      resolvePostScrapeSelection run job sheetNames
        = resolvePostScrapeSelection.resolveSheetPhase l job sheetNames) ∧
    (∀ n, originalEntries run ≠ [] →
      lastSelectionHit job (originalNames run) = Option.none →
      originalNames run = [n] →
      resolvePostScrapeSelection run job sheetNames
        = resolvePostScrapeSelection.resolveSheetPhase n job sheetNames) ∧
    (originalEntries run ≠ [] →
      lastSelectionHit job (originalNames run) = Option.none →
      (originalNames run).length ≠ 1 →
      resolvePostScrapeSelection run job sheetNames = SelOutcome.pendingFileSelection) ∧
    (∀ f, isExcelFilename f = false →
      resolvePostScrapeSelection.resolveSheetPhase f job sheetNames
        = SelOutcome.resolved f Option.none) ∧
    (∀ f, isExcelFilename f = true → sheetNames f = [] →
      resolvePostScrapeSelection.resolveSheetPhase f job sheetNames
        = SelOutcome.failedSel ("Could not list sheets for " ++ f ++ ".")) ∧
    (∀ f s, isExcelFilename f = true →
      pickSheetByAliases (sheetNames f) job.last_selected_sheet job.sheet_aliases = some s →
      resolvePostScrapeSelection.resolveSheetPhase f job sheetNames
        = SelOutcome.resolved f (some s)) ∧
    (∀ f s, isExcelFilename f = true →
      pickSheetByAliases (sheetNames f) job.last_selected_sheet job.sheet_aliases
        = Option.none →
      sheetNames f = [s] →
      resolvePostScrapeSelection.resolveSheetPhase f job sheetNames
        = SelOutcome.resolved f (some s)) ∧
    (∀ f, isExcelFilename f = true →
      pickSheetByAliases (sheetNames f) job.last_selected_sheet job.sheet_aliases
        = Option.none →
      2 ≤ (sheetNames f).length →
      resolvePostScrapeSelection.resolveSheetPhase f job sheetNames
        = SelOutcome.pendingSheetSelection f) := by
  refine ⟨?_, ?_, ?_, ?_, ?_, ?_, ?_, ?_, ?_, ?_⟩
  · intro sel
    rfl
  · intro h
    simp [resolvePostScrapeSelection, h]
  · intro l hne hhit
    simp [resolvePostScrapeSelection, hne, hhit]
  · intro n hne hhit hnames
    rw [hnames] at hhit
    simp [resolvePostScrapeSelection, hne, hnames, hhit]
  · intro hne hhit hlen
    simp only [resolvePostScrapeSelection, if_neg hne, hhit]
    rcases hN : originalNames run with _ | ⟨a, _ | ⟨b, t⟩⟩
    · rfl
    · rw [hN] at hlen
      simp at hlen
    · rfl
  · intro f hx
    simp [resolvePostScrapeSelection.resolveSheetPhase, hx]
  · intro f hx hempty
    simp [resolvePostScrapeSelection.resolveSheetPhase, hx, hempty]
  · intro f s hx hpick
    by_cases hemp : sheetNames f = []
    · rw [hemp] at hpick
      simp [pickSheetByAliases] at hpick
    · simp [resolvePostScrapeSelection.resolveSheetPhase, hx, hemp, hpick]
  · intro f s hx hpick hone
    simp [resolvePostScrapeSelection.resolveSheetPhase, hx, hone, hpick]
    · rw [hone] at hpick
      simp [hpick]
  · intro f hx hpick hlen
    rcases hS : sheetNames f with _ | ⟨a, _ | ⟨b, t⟩⟩
    · rw [hS] at hlen
      simp at hlen
    · rw [hS] at hlen
      simp at hlen
    · simp [resolvePostScrapeSelection.resolveSheetPhase, hx, hS]
      rw [hS] at hpick
      simp [hpick]

/-- Witness for C4 (amended): the job's persisted last-selection wins when
it matches a captured original name. -/
theorem resolve_post_scrape_priority_witness :
    resolvePostScrapeSelection casRun casJob (fun _ => []) =
      resolvePostScrapeSelection.resolveSheetPhase "a.csv" casJob (fun _ => []) :=
  ((resolve_post_scrape_priority casRun casJob (fun _ => [])).2.2.1) "a.csv"
    (by decide) (by decide)

/-- C9: after `append_processed_to_run` writes a new processed batch, an
entry of the resulting `Run.files` is a `processed` entry marked `is_latest`
exactly when it is one of the newly appended entries; and every surviving
previously existing `processed` entry reappears with its `is_latest` flag
cleared to `false`. -/
theorem append_processed_latest_invariant (files : List RunFileEntry)
    (pathOnDisk : String → Bool) (snapshot : ProcessorSnapshot)
    (promoted : List (String × String × Nat)) :
    (∀ f ∈ appendProcessedToRun files pathOnDisk snapshot promoted,
      (f.file_type = FileType.processed ∧ f.is_latest = true) ↔
        f ∈ promoted.map (fun p => mkProcessedEntry snapshot p.1 p.2.1 p.2.2)) ∧
    (∀ g ∈ files, (g.path = "" ∨ pathOnDisk g.path = true) →
      g.file_type = FileType.processed →
      { g with is_latest := false } ∈ appendProcessedToRun files pathOnDisk snapshot promoted) := by
  constructor
  · intro f hf
    rcases List.mem_append.mp hf with hold | hnew
    · constructor
      · rintro ⟨hproc, hlatest⟩
        obtain ⟨g, hg, hfg⟩ := List.mem_map.mp hold
        by_cases hgp : g.file_type = FileType.processed
        · rw [if_pos hgp] at hfg
          rw [← hfg] at hlatest
          simp at hlatest
        · rw [if_neg hgp] at hfg
          rw [← hfg] at hproc
          exact absurd hproc hgp
      · intro hnew
        obtain ⟨p, hp, hfp⟩ := List.mem_map.mp hnew
        obtain ⟨g, hg, hfg⟩ := List.mem_map.mp hold
        by_cases hgp : g.file_type = FileType.processed
        · rw [if_pos hgp] at hfg
          rw [← hfp] at hfg
          have : ({ g with is_latest := false } : RunFileEntry).is_latest = false := rfl
          rw [hfg] at this
          simp [mkProcessedEntry] at this
        · rw [if_neg hgp] at hfg
          rw [← hfp] at hfg
          rw [hfg] at hgp
          simp [mkProcessedEntry] at hgp
    · constructor
      · intro _
        exact hnew
      · intro _
        obtain ⟨p, hp, hfp⟩ := List.mem_map.mp hnew
        rw [← hfp]
        simp [mkProcessedEntry]
  · intro g hg hkeep hproc
    apply List.mem_append.mpr
    left
    apply List.mem_map.mpr
    refine ⟨g, ?_, if_pos hproc⟩
    apply List.mem_filter.mpr
    refine ⟨hg, ?_⟩
    rcases hkeep with h1 | h2
    · simp [h1]
    · simp [h2]

/-- Witness for C9 at a concrete run: the newly appended entry is exactly
the latest processed entry. -/
theorem append_processed_latest_invariant_witness :
    ((mkProcessedEntry snap0 "new.csv" "r1/processed/new.csv" 7).file_type
        = FileType.processed ∧
      (mkProcessedEntry snap0 "new.csv" "r1/processed/new.csv" 7).is_latest = true) ↔
    mkProcessedEntry snap0 "new.csv" "r1/processed/new.csv" 7 ∈
      ([("new.csv", "r1/processed/new.csv", 7)].map
        (fun p => mkProcessedEntry snap0 p.1 p.2.1 p.2.2)) :=
  (append_processed_latest_invariant [oldProcessedEntry, origEntry "a.csv"]
      (fun _ => true) snap0 [("new.csv", "r1/processed/new.csv", 7)]).1
    (mkProcessedEntry snap0 "new.csv" "r1/processed/new.csv" 7) (by decide)

/-- C10: when the capture step finds at least one new download, its
`$set` write replaces the run's whole `files` array with the captured
`original` entries — every entry present before the write, in particular any
`processed` entry of an earlier attempt, is no longer in `Run.files`. -/
theorem capture_write_replaces_files (run : PostScrapeRun)
    (captured : List (String × String × Nat × List String)) (h : captured ≠ []) :
    (captureFilesWrite run captured).files =
      captured.map (fun c => mkCapturedEntry c.1 c.2.1 c.2.2.1 c.2.2.2) ∧
    (∀ f ∈ (captureFilesWrite run captured).files, f.file_type = FileType.original) ∧
    (∀ g ∈ run.files, g.file_type = FileType.processed →
      g ∉ (captureFilesWrite run captured).files) := by
  have hmeta : captured.map (fun c => mkCapturedEntry c.1 c.2.1 c.2.2.1 c.2.2.2) ≠ [] := by
    intro hm
    exact h (List.map_eq_nil_iff.mp hm)
  have hfiles : (captureFilesWrite run captured).files =
      captured.map (fun c => mkCapturedEntry c.1 c.2.1 c.2.2.1 c.2.2.2) := by
    simp [captureFilesWrite, hmeta]
  have horig : ∀ f ∈ (captureFilesWrite run captured).files,
      f.file_type = FileType.original := by
    intro f hf
    rw [hfiles] at hf
    obtain ⟨c, _, hcf⟩ := List.mem_map.mp hf
    rw [← hcf]
    rfl
  refine ⟨hfiles, horig, ?_⟩
  intro g _ hproc hmem
  have := horig g hmem
  rw [hproc] at this
  exact absurd this (by decide)

/-- Witness for C10: a retried run still carrying a processed entry gets its
files list replaced by the single captured original. -/
theorem capture_write_replaces_files_witness :
    (captureFilesWrite (PostScrapeRun.mk [oldProcessedEntry] Option.none Option.none)
        [("a_19022026.csv", "r1/original/a_19022026.csv", 4, [])]).files =
      [("a_19022026.csv", "r1/original/a_19022026.csv", 4, ([] : List String))].map
        (fun c => mkCapturedEntry c.1 c.2.1 c.2.2.1 c.2.2.2) :=
  (capture_write_replaces_files (PostScrapeRun.mk [oldProcessedEntry] Option.none Option.none)
    [("a_19022026.csv", "r1/original/a_19022026.csv", 4, [])] (by decide)).1

end Beehus
